import Mathlib

/-!
Verification of the One_Stop_Ai ingestion monitors.

Shallow embedding of the two source files:
  * `src/simple_slack_monitor.py` — Slack channel monitor (download gate,
    downloader, trigger classifier, JSON event/logging stores, poll loop);
  * `src/drive.py` — Google Drive monitor (export-format gate for
    Google-Workspace virtual documents, poll/diff loop over a known-id set).

Python strings are modelled as Lean `String`, byte payloads as `List Nat`,
JSON store contents as structures, the filesystem presence of a store file
as an inductive (`DiskFile`), and the network as explicit inputs
(listing results, HTTP responses, chunk streams).
-/

set_option maxRecDepth 20000

namespace OneStopAi

/-- Python substring test `needle in hay` on the character list of `hay`. -/
def subList (needle : List Char) : List Char → Bool
  | [] => needle.isEmpty
  | c :: rest => needle.isPrefixOf (c :: rest) || subList needle rest

/-- Python `needle in hay` for strings (substring containment). -/
def strContainsSub (hay needle : String) : Bool :=
  subList needle.data hay.data

/-- Python `str.lower()` (ASCII case folding, which covers every string the
program compares). -/
def lowerStr (s : String) : String :=
  String.mk (s.data.map Char.toLower)

/-- Python `s.startswith(p)` (prefix test on the character list). -/
def strStartsWith (s p : String) : Bool :=
  p.data.isPrefixOf s.data

/-! ## Trigger classifier (`check_bot_mentions_and_keywords`, lines 304–336) -/

/-- The keyword list hard-coded at line 304 of `simple_slack_monitor.py`. -/
def keywords : List String :=
  ["/aisave", "save this", "important", "remember this", "@ai", "@bot"]

/-- The pattern list hard-coded at line 334 of `simple_slack_monitor.py`. -/
def patternList : List String :=
  ["todo:", "note:", "reminder:"]

/-- The four trigger labels the classifier can emit. -/
inductive TriggerType
  | bot_mention
  | aisave_command
  | keyword_trigger
  | pattern_match
deriving DecidableEq, Repr

/-- Rule 1, line 318: `f"<@{bot_user_id}>" in message_text` (case-sensitive,
on the raw text). -/
def mentionMatch (botId text : String) : Bool :=
  strContainsSub text ("<@" ++ botId ++ ">")

/-- Rule 2, line 323: `'/aisave' in message_text.lower()`. -/
def commandMatch (text : String) : Bool :=
  strContainsSub (lowerStr text) "/aisave"

/-- Rule 3, line 328: `any(keyword.lower() in message_text.lower() for keyword
in keywords)`. -/
def keywordMatch (text : String) : Bool :=
  keywords.any (fun kw => strContainsSub (lowerStr text) (lowerStr kw))

/-- Rule 4, line 334: `any(pattern in message_text.lower() for pattern in
['todo:', 'note:', 'reminder:'])`. -/
def patternMatch (text : String) : Bool :=
  patternList.any (fun p => strContainsSub (lowerStr text) p)

/-- The `if`/`elif` chain of lines 317–336: at most one trigger label per
message, produced by the first matching rule. -/
def classify (botId text : String) : Option TriggerType :=
  if mentionMatch botId text then some .bot_mention
  else if commandMatch text then some .aisave_command
  else if keywordMatch text then some .keyword_trigger
  else if patternMatch text then some .pattern_match
  else none

/-- A classifier rule: its label and its match predicate on (botId, text). -/
structure Rule where
  label : TriggerType
  applies : String → String → Bool

/-- The rule set in the spec's priority order:
mention > command > keyword > pattern. -/
def rulesInPriority : List Rule :=
  [⟨.bot_mention, mentionMatch⟩,
   ⟨.aisave_command, fun _ t => commandMatch t⟩,
   ⟨.keyword_trigger, fun _ t => keywordMatch t⟩,
   ⟨.pattern_match, fun _ t => patternMatch t⟩]

/-- Modelled from the spec's words (§4.3): evaluate the rules in strict
priority order and return the label of the first match, `none` otherwise. -/
def specClassify (botId text : String) : Option TriggerType :=
  (rulesInPriority.find? (fun r => r.applies botId text)).map Rule.label

/-! ## Slack download gate and downloader (`download_file`, lines 121–177) -/

/-- `MAX_FILE_SIZE = 25 * 1024 * 1024` (line 36). -/
def MAX_FILE_SIZE : Nat := 25 * 1024 * 1024

/-- The extension allow-list of line 37. -/
def SUPPORTED_EXTENSIONS : List String :=
  [".txt", ".pdf", ".docx", ".json", ".md", ".csv", ".xlsx", ".pptx"]

/-- Extension part of `os.path.splitext` on a basename (no directory
separators): the suffix from the last dot, provided some character strictly
before that dot is not itself a dot (so leading dots never start an
extension, e.g. `".bashrc"` has extension `""`). -/
def splitextExt (name : String) : String :=
  let r := name.data.reverse
  let after := r.takeWhile (fun c => c ≠ '.')
  match r.drop after.length with
  | [] => ""
  | _ :: before =>
      if before.any (fun c => c ≠ '.') then String.mk ('.' :: after.reverse) else ""

/-- The resolved extension the gate tests: `os.path.splitext(file_name)[1]`
lower-cased (lines 135–136). -/
def resolvedExt (name : String) : String :=
  lowerStr (splitextExt name)

/-- A Slack file object, with the fields `download_file` reads. `none` models
an absent JSON field. All Slack files are native binaries (the Slack source
has no virtual-document kind). -/
structure SlackFileInfo where
  id : String
  name : String
  size : Nat
  url_private_download : Option String
  url_private : Option String
  mimetype : String
deriving DecidableEq, Repr

/-- Python `a or b` on two optional strings: an absent or empty first operand
falls through to the second (line 126). -/
def pyOrStr (a b : Option String) : Option String :=
  match a with
  | some s => if s.isEmpty then b else some s
  | none => b

/-- Python truthiness of an optional string: `None` and `""` are falsy. -/
def truthyStr : Option String → Bool
  | some s => !s.isEmpty
  | none => false

/-- The download URL of line 126:
`file_info.get('url_private_download') or file_info.get('url_private')`. -/
def effectiveUrl (f : SlackFileInfo) : Option String :=
  pyOrStr f.url_private_download f.url_private

/-- The admit/reject decision `download_file` takes before any network fetch. -/
inductive GateDecision
  | proceed
  | rejectTooLarge
  | rejectUnsupportedExt
  | rejectNoUrl
deriving DecidableEq, Repr

/-- The pre-fetch checks of `download_file`, in source order: size ceiling
(line 131), extension allow-list (lines 135–136), presence of a download URL
(line 140). Each failing check returns `None` immediately. -/
def slackGate (f : SlackFileInfo) : GateDecision :=
  if MAX_FILE_SIZE < f.size then .rejectTooLarge
  else if !(SUPPORTED_EXTENSIONS.contains (resolvedExt f.name)) then .rejectUnsupportedExt
  else if !(truthyStr (effectiveUrl f)) then .rejectNoUrl
  else .proceed

/-- One event of `response.iter_content(chunk_size=8192)`: either a chunk of
bytes, or the transport error that the iteration raises mid-stream. -/
inductive StreamEvent
  | chunk (bytes : List Nat)
  | errMid
deriving DecidableEq, Repr

/-- An HTTP response: status code and the body's chunk stream. -/
structure HttpResponse where
  status : Nat
  events : List StreamEvent
deriving DecidableEq, Repr

/-- Replay of the write loop of lines 154–158: returns the bytes written to
the open file when the stream ends or the error fires, and whether the stream
completed without error. -/
def runStream : List StreamEvent → List Nat → List Nat × Bool
  | [], acc => (acc, true)
  | .chunk b :: rest, acc => runStream rest (acc ++ b)
  | .errMid :: _, acc => (acc, false)

/-- The success record `download_file` returns (lines 162–169), restricted to
the fields the claims mention. -/
structure DlResult where
  original_name : String
  size : Nat
deriving DecidableEq, Repr

/-- Observable outcome of one `download_file` call: the returned value
(`none` models Python `None`) and the content of the file at the final
destination path afterwards (`none` = the call never created the file). -/
structure DlOutcome where
  result : Option DlResult
  fileAtPath : Option (List Nat)
deriving DecidableEq, Repr

/-- `download_file` of `simple_slack_monitor.py` (lines 121–177): gate checks,
then `open(file_path, 'wb')` directly at the destination and chunked writes.
A mid-stream transport error is caught by the function's `except` clause,
which returns `None` without deleting the partially written file. -/
def download_file (f : SlackFileInfo) (resp : HttpResponse) : DlOutcome :=
  match slackGate f with
  | .proceed =>
      if resp.status = 200 then
        match runStream resp.events [] with
        | (written, true) => ⟨some ⟨f.name, written.length⟩, some written⟩
        | (written, false) => ⟨none, some written⟩
      else ⟨none, none⟩
  | _ => ⟨none, none⟩

/-! ## Drive download gate (`drive.py` `download_file`, lines 49–89) -/

/-- The Google-Workspace export mapping of lines 54–58, keyed by the full
source MIME type. -/
def export_formats : List (String × String) :=
  [("application/vnd.google-apps.document",
    "application/vnd.openxmlformats-officedocument.wordprocessingml.document"),
   ("application/vnd.google-apps.spreadsheet",
    "application/vnd.openxmlformats-officedocument.spreadsheetml.sheet"),
   ("application/vnd.google-apps.presentation",
    "application/vnd.openxmlformats-officedocument.presentationml.presentation")]

/-- The fetch the Drive gate decides on: export a virtual document with the
mapped MIME type under the given output name, fetch a native binary, or
reject an unmapped virtual type before any request is built. -/
inductive DriveGate
  | exportAs (mime : String) (outName : String)
  | native (outName : String)
  | rejectUnsupportedVirtual
deriving DecidableEq, Repr

/-- The branch of `drive.py` lines 53–72: a `application/vnd.google-apps*`
MIME type is looked up in `export_formats`; a mapped type becomes an export
request and the file name gains the matching extension (`.docx`, `.xlsx`,
`.pptx`); an unmapped virtual type returns `False` before any request;
anything else is fetched natively under its own name. -/
def driveGate (file_name mime_type : String) : DriveGate :=
  if strStartsWith mime_type "application/vnd.google-apps" then
    match export_formats.lookup mime_type with
    | some exMime =>
        let outName :=
          if mime_type = "application/vnd.google-apps.document" then file_name ++ ".docx"
          else if mime_type = "application/vnd.google-apps.spreadsheet" then file_name ++ ".xlsx"
          else if mime_type = "application/vnd.google-apps.presentation" then file_name ++ ".pptx"
          else file_name
        .exportAs exMime outName
    | none => .rejectUnsupportedVirtual
  else .native file_name

/-! ## Drive poll loop (`monitor_drive`, lines 91–140) -/

/-- The metadata fields of one listed Drive file that the monitor reads. -/
structure DriveFileMeta where
  id : String
  name : String
  mimeType : String
deriving DecidableEq, Repr

/-- Outcome of `get_all_files()` at the top of one poll cycle: a full
listing, a raised transient error (any `Exception`), or a
`KeyboardInterrupt` delivered during the cycle. -/
inductive ListingResult
  | ok (files : List DriveFileMeta)
  | transientError
  | interrupted
deriving Repr

/-- Python `set.add` on the id set modelled as a duplicate-free list. -/
def insertId (i : String) (k : List String) : List String :=
  if k.contains i then k else i :: k

/-- The `new` partition of one poll:
`new_file_ids = current_file_ids - known_files` (line 114). -/
def newIdsOf (known : List String) (cur : List DriveFileMeta) : List String :=
  (cur.map DriveFileMeta.id).filter (fun i => !(known.contains i))

/-- Result of one iteration of the `while True` loop of lines 107–140:
the known-id set afterwards, the `new` partition
(`current_file_ids - known_files`) of this poll, and whether the loop goes on
to another iteration. -/
structure DriveCycleResult where
  knownAfter : List String
  newIds : List String
  continues : Bool
deriving Repr

/-- One poll cycle of `monitor_drive` (lines 107–140). `dlOk id` is the
boolean `download_file` returned for that id. The body diffs the current
listing against `known_files` and adds an id to `known_files` only when its
download returned `True` (lines 126–127). A raised `Exception` is caught at
line 137: the cycle mutates nothing and the loop sleeps and retries; a
`KeyboardInterrupt` breaks the loop (line 134). -/
def drivePollCycle (known : List String) (listing : ListingResult)
    (dlOk : String → Bool) : DriveCycleResult :=
  match listing with
  | .interrupted => ⟨known, [], false⟩
  | .transientError => ⟨known, [], true⟩
  | .ok cur =>
      let newIds := newIdsOf known cur
      let knownAfter := cur.foldl
        (fun k f => if newIds.contains f.id && dlOk f.id then insertId f.id k else k) known
      ⟨knownAfter, newIds, true⟩

/-- A whole run of the poll loop from a given known set: the sequence of
`new` partitions, one per executed poll, and the final known set. The run
stops early when a cycle does not continue. -/
def runPolls : List String → List (ListingResult × (String → Bool)) →
    List (List String) × List String
  | known, [] => ([], known)
  | known, (lst, dl) :: rest =>
      let r := drivePollCycle known lst dl
      if r.continues then
        (r.newIds :: (runPolls r.knownAfter rest).1, (runPolls r.knownAfter rest).2)
      else ([r.newIds], r.knownAfter)

/-! ## Slack persisted stores (`load_existing_data`, `load_logging_data`,
`save_to_logging`, `save_to_json`, lines 61–109) -/

/-- The record appended to the logging store per message (lines 216–244;
only the uncommented fields). `timestamp` is `datetime.now().isoformat()`. -/
structure MessageData where
  timestamp : String
  user_id : String
  text_usethisforQueries : String
deriving DecidableEq, Repr

/-- The record appended to the events store per trigger (lines 339–351),
restricted to the fields the claims mention. -/
structure EventData where
  type : TriggerType
  timestamp : String
  trigger_text : String
  user_id : String
  ts : String
  channel : String
deriving DecidableEq, Repr

/-- Content of the events store file `JSON_FILE`. -/
structure EventsData where
  events : List EventData
  last_updated : Option String
deriving DecidableEq, Repr

/-- Content of the logging store file `LOGGING_FILE`. -/
structure LoggingData where
  messages : List MessageData
  last_updated : Option String
  total_messages : Nat
deriving DecidableEq, Repr

/-- State of a store file on disk, as the loaders distinguish it:
absent (`os.path.exists` false), present but zero bytes
(`os.path.getsize == 0`), present but unparseable (`json.load` raises), or
present with parsed content. -/
inductive DiskFile (α : Type)
  | missing
  | empty
  | corrupt
  | good (val : α)
deriving DecidableEq, Repr

/-- `load_existing_data` (lines 61–68): only an existing, non-empty,
parseable file is returned; every other case yields
`{"events": [], "last_updated": None}`. -/
def load_existing_data : DiskFile EventsData → EventsData
  | .good d => d
  | _ => ⟨[], none⟩

/-- `load_logging_data` (lines 70–77): only an existing, non-empty,
parseable file is returned; every other case yields
`{"messages": [], "last_updated": None, "total_messages": 0}`. -/
def load_logging_data : DiskFile LoggingData → LoggingData
  | .good d => d
  | _ => ⟨[], none, 0⟩

/-- The read-modify-write of `save_to_logging` (lines 79–93) on the loaded
store content: append the record, stamp `last_updated` with the current time,
and recompute `total_messages` as the length of the message list. -/
def save_to_logging (existing : LoggingData) (md : MessageData) (now : String) :
    LoggingData :=
  let msgs := existing.messages ++ [md]
  ⟨msgs, some now, msgs.length⟩

/-- The read-modify-write of `save_to_json` (lines 95–109) on the loaded
events store content: append the event and stamp `last_updated`. -/
def save_to_json (existing : EventsData) (ev : EventData) (now : String) :
    EventsData :=
  ⟨existing.events ++ [ev], some now⟩

/-! ## Slack message processing (lines 179–357, 391–407) -/

/-- One Slack message with the fields the monitor reads. A missing `user`
field is modelled as `""` (the monitor compares it only against the non-empty
bot user id). -/
structure SlackMessage where
  user : String
  text : String
  ts : String
  files : List SlackFileInfo
deriving DecidableEq, Repr

/-- The logging record built for a message (lines 216–244). -/
def messageDataOf (now : String) (m : SlackMessage) : MessageData :=
  ⟨now, m.user, m.text⟩

/-- The records `log_all_recent_messages` appends to the logging store for
one channel's message list (lines 210–247): bot-authored messages are
skipped by the `continue` of line 211. -/
def logRecentMessages (botId now : String) : List SlackMessage → List MessageData
  | [] => []
  | m :: rest =>
      if m.user == botId then logRecentMessages botId now rest
      else messageDataOf now m :: logRecentMessages botId now rest

/-- The file downloads `log_all_recent_messages` attempts via
`process_message_files` (lines 179–191, 210–214): one attempt per attached
file of each non-bot message, in order. -/
def loggedFilesAttempted (botId : String) : List SlackMessage → List SlackFileInfo
  | [] => []
  | m :: rest =>
      if m.user == botId then loggedFilesAttempted botId rest
      else m.files ++ loggedFilesAttempted botId rest

/-- The file downloads the startup history scan `check_for_files_in_history`
attempts for one channel (lines 276–286): bot messages are skipped at line
277, then messages with a non-empty file list go through
`process_message_files`. -/
def historyFilesAttempted (botId : String) : List SlackMessage → List SlackFileInfo
  | [] => []
  | m :: rest =>
      if m.user == botId then historyFilesAttempted botId rest
      else if m.files.isEmpty then historyFilesAttempted botId rest
      else m.files ++ historyFilesAttempted botId rest

/-- The event record built at lines 339–351. -/
def eventDataOf (now channel : String) (tt : TriggerType) (m : SlackMessage) :
    EventData :=
  ⟨tt, now, m.text, m.user, m.ts, channel⟩

/-- The events `check_bot_mentions_and_keywords` appends to the events store
for one channel's message list (lines 306–353): bot messages are skipped at
line 311, every other message is classified and a matched trigger is saved. -/
def triggerEvents (botId now channel : String) : List SlackMessage → List EventData
  | [] => []
  | m :: rest =>
      if m.user == botId then triggerEvents botId now channel rest
      else
        match classify botId m.text with
        | some tt => eventDataOf now channel tt m :: triggerEvents botId now channel rest
        | none => triggerEvents botId now channel rest

/-- `get_recent_messages` (lines 193–203): a `SlackApiError` from the history
listing is caught inside the function and turned into an empty message
list. -/
def get_recent_messages (listing : Except Unit (List SlackMessage)) :
    List SlackMessage :=
  match listing with
  | .ok ms => ms
  | .error _ => []

/-- One iteration of the Slack `_monitor_loop` (lines 391–407) for one
channel: log all recent messages into the logging store, then save every
trigger event into the events store; the cycle always continues (any raised
`Exception` only sleeps and retries). Returns the two stores afterwards and
whether the loop goes on. -/
def slackMonitorCycle (botId now channel : String)
    (listing : Except Unit (List SlackMessage))
    (events : EventsData) (logd : LoggingData) :
    EventsData × LoggingData × Bool :=
  let msgs := get_recent_messages listing
  let logd2 := (logRecentMessages botId now msgs).foldl
    (fun d md => save_to_logging d md now) logd
  let events2 := (triggerEvents botId now channel msgs).foldl
    (fun d ev => save_to_json d ev now) events
  (events2, logd2, true)

/-! ## Helper lemmas -/

lemma contains_eq_true_iff (k : List String) (i : String) :
    k.contains i = true ↔ i ∈ k :=
  List.elem_iff

lemma contains_eq_false_iff (k : List String) (i : String) :
    k.contains i = false ↔ i ∉ k := by
  rw [← contains_eq_true_iff k i]
  simp

lemma mem_insertId (j : String) (k : List String) (i : String) :
    i ∈ insertId j k ↔ i = j ∨ i ∈ k := by
  unfold insertId
  by_cases h : k.contains j = true
  · rw [if_pos h]
    have hj : j ∈ k := (contains_eq_true_iff k j).mp h
    constructor
    · exact Or.inr
    · rintro (rfl | hi)
      · exact hj
      · exact hi
  · rw [if_neg h]
    exact List.mem_cons

lemma mem_newIdsOf (known : List String) (cur : List DriveFileMeta) (i : String) :
    i ∈ newIdsOf known cur ↔ i ∈ cur.map DriveFileMeta.id ∧ i ∉ known := by
  unfold newIdsOf
  rw [List.mem_filter]
  simp [contains_eq_false_iff]

lemma mem_foldl_insertId (p : DriveFileMeta → Bool) (cur : List DriveFileMeta)
    (known : List String) (i : String) :
    (i ∈ cur.foldl (fun k f => if p f then insertId f.id k else k) known) ↔
      i ∈ known ∨ ∃ f ∈ cur, f.id = i ∧ p f = true := by
  induction cur generalizing known with
  | nil => simp
  | cons f rest ih =>
    rw [List.foldl_cons]
    by_cases hp : p f = true
    · rw [if_pos hp, ih, mem_insertId]
      constructor
      · rintro ((rfl | hk) | ⟨g, hg, rfl, hgp⟩)
        · exact Or.inr ⟨f, List.mem_cons_self f rest, rfl, hp⟩
        · exact Or.inl hk
        · exact Or.inr ⟨g, List.mem_cons_of_mem f hg, rfl, hgp⟩
      · rintro (hk | ⟨g, hg, rfl, hgp⟩)
        · exact Or.inl (Or.inr hk)
        · rcases List.mem_cons.mp hg with rfl | hg2
          · exact Or.inl (Or.inl rfl)
          · exact Or.inr ⟨g, hg2, rfl, hgp⟩
    · rw [if_neg hp, ih]
      constructor
      · rintro (hk | ⟨g, hg, rfl, hgp⟩)
        · exact Or.inl hk
        · exact Or.inr ⟨g, List.mem_cons_of_mem f hg, rfl, hgp⟩
      · rintro (hk | ⟨g, hg, rfl, hgp⟩)
        · exact Or.inl hk
        · rcases List.mem_cons.mp hg with rfl | hg2
          · exact absurd hgp hp
          · exact Or.inr ⟨g, hg2, rfl, hgp⟩

lemma drivePollCycle_ok_newIds (known : List String) (cur : List DriveFileMeta)
    (dlOk : String → Bool) :
    (drivePollCycle known (ListingResult.ok cur) dlOk).newIds = newIdsOf known cur :=
  rfl

lemma drivePollCycle_mem_newIds (known : List String) (cur : List DriveFileMeta)
    (dlOk : String → Bool) (i : String) :
    i ∈ (drivePollCycle known (ListingResult.ok cur) dlOk).newIds ↔
      i ∈ cur.map DriveFileMeta.id ∧ i ∉ known := by
  rw [drivePollCycle_ok_newIds]
  exact mem_newIdsOf known cur i

lemma drivePollCycle_mem_known (known : List String) (cur : List DriveFileMeta)
    (dlOk : String → Bool) (i : String) :
    i ∈ (drivePollCycle known (ListingResult.ok cur) dlOk).knownAfter ↔
      i ∈ known ∨ (i ∈ cur.map DriveFileMeta.id ∧ i ∉ known ∧ dlOk i = true) := by
  have hshow : (drivePollCycle known (ListingResult.ok cur) dlOk).knownAfter
      = cur.foldl
          (fun k f => if (newIdsOf known cur).contains f.id && dlOk f.id
            then insertId f.id k else k) known := rfl
  rw [hshow, mem_foldl_insertId]
  constructor
  · rintro (hk | ⟨f, hf, rfl, hp⟩)
    · exact Or.inl hk
    · rw [Bool.and_eq_true] at hp
      have h1 : f.id ∈ newIdsOf known cur := (contains_eq_true_iff _ _).mp hp.1
      have h2 := (mem_newIdsOf known cur f.id).mp h1
      exact Or.inr ⟨h2.1, h2.2, hp.2⟩
  · rintro (hk | ⟨hmap, hnk, hdl⟩)
    · exact Or.inl hk
    · obtain ⟨f, hf, rfl⟩ := List.mem_map.mp hmap
      refine Or.inr ⟨f, hf, rfl, ?_⟩
      rw [Bool.and_eq_true]
      refine ⟨(contains_eq_true_iff _ _).mpr ?_, hdl⟩
      exact (mem_newIdsOf known cur f.id).mpr ⟨List.mem_map.mpr ⟨f, hf, rfl⟩, hnk⟩

lemma drivePollCycle_preserves_known (known : List String) (lst : ListingResult)
    (dl : String → Bool) (i : String) (h : i ∈ known) :
    i ∈ (drivePollCycle known lst dl).knownAfter ∧
      i ∉ (drivePollCycle known lst dl).newIds := by
  cases lst with
  | transientError => exact ⟨h, List.not_mem_nil i⟩
  | interrupted => exact ⟨h, List.not_mem_nil i⟩
  | ok cur =>
    refine ⟨(drivePollCycle_mem_known known cur dl i).mpr (Or.inl h), ?_⟩
    intro hmem
    exact ((drivePollCycle_mem_newIds known cur dl i).mp hmem).2 h

lemma runPolls_preserves_known (polls : List (ListingResult × (String → Bool)))
    (known : List String) (i : String) (h : i ∈ known) :
    i ∈ (runPolls known polls).2 ∧ ∀ part ∈ (runPolls known polls).1, i ∉ part := by
  induction polls generalizing known with
  | nil =>
    refine ⟨h, ?_⟩
    intro part hp
    simp [runPolls] at hp
  | cons pr rest ih =>
    obtain ⟨lst, dl⟩ := pr
    obtain ⟨hknown, hnew⟩ := drivePollCycle_preserves_known known lst dl i h
    have hrw : runPolls known ((lst, dl) :: rest)
        = (if (drivePollCycle known lst dl).continues then
            ((drivePollCycle known lst dl).newIds ::
              (runPolls (drivePollCycle known lst dl).knownAfter rest).1,
             (runPolls (drivePollCycle known lst dl).knownAfter rest).2)
          else ([(drivePollCycle known lst dl).newIds],
            (drivePollCycle known lst dl).knownAfter)) := rfl
    by_cases hc : (drivePollCycle known lst dl).continues = true
    · obtain ⟨ih1, ih2⟩ := ih (drivePollCycle known lst dl).knownAfter hknown
      rw [hrw, if_pos hc]
      refine ⟨ih1, ?_⟩
      intro part hp
      rcases List.mem_cons.mp hp with rfl | hp2
      · exact hnew
      · exact ih2 part hp2
    · rw [hrw, if_neg hc]
      refine ⟨hknown, ?_⟩
      intro part hp
      rcases List.mem_cons.mp hp with rfl | hp2
      · exact hnew
      · simp at hp2

/-! ## Claim theorems -/

/-- C1 (counterexample): the claim "once ingestion of an item has been
attempted (even if the download failed), the item is added to KnownSet and
is never re-processed" is false on the code. Starting from an empty known
set, a file `f1` whose download fails appears in the `new` partition of both
of two consecutive polls, and is in the known set after neither. -/
theorem failed_download_reappears_as_new :
    (runPolls [] [(ListingResult.ok [⟨"f1", "a", "text/plain"⟩], fun _ => false),
        (ListingResult.ok [⟨"f1", "a", "text/plain"⟩], fun _ => false)]).1
      = [["f1"], ["f1"]] ∧
    (runPolls [] [(ListingResult.ok [⟨"f1", "a", "text/plain"⟩], fun _ => false),
        (ListingResult.ok [⟨"f1", "a", "text/plain"⟩], fun _ => false)]).2 = [] := by
  constructor
  · rfl
  · rfl

/-- C1 (amended): an id enters KnownSet exactly when a poll lists it as new
and its download succeeds; once an id is in KnownSet it stays there for the
rest of the run and never appears in any later `new` partition. An
attempted-but-failed item is not added and is re-listed as new. -/
theorem known_set_success_only_dedup :
    (∀ (known : List String) (cur : List DriveFileMeta) (dlOk : String → Bool)
        (i : String),
      (i ∈ (drivePollCycle known (ListingResult.ok cur) dlOk).newIds ↔
          i ∈ cur.map DriveFileMeta.id ∧ i ∉ known) ∧
      (i ∈ (drivePollCycle known (ListingResult.ok cur) dlOk).knownAfter ↔
          i ∈ known ∨ (i ∈ cur.map DriveFileMeta.id ∧ i ∉ known ∧ dlOk i = true))) ∧
    (∀ (known : List String) (polls : List (ListingResult × (String → Bool)))
        (i : String),
      i ∈ known →
        i ∈ (runPolls known polls).2 ∧ ∀ part ∈ (runPolls known polls).1, i ∉ part) :=
  ⟨fun known cur dlOk i =>
    ⟨drivePollCycle_mem_newIds known cur dlOk i, drivePollCycle_mem_known known cur dlOk i⟩,
   fun known polls i h => runPolls_preserves_known polls known i h⟩

/-- C1 (witness): instantiates the amended theorem at a concrete run where
`"x"` is already known; the single poll re-lists `"x"` but it stays known
and is not re-processed. -/
theorem known_set_success_only_dedup_witness :
    "x" ∈ (runPolls ["x"] [(ListingResult.ok [⟨"x", "n", "m"⟩], fun _ => true)]).2 ∧
    ∀ part ∈ (runPolls ["x"] [(ListingResult.ok [⟨"x", "n", "m"⟩], fun _ => true)]).1,
      "x" ∉ part :=
  known_set_success_only_dedup.2 ["x"]
    [(ListingResult.ok [⟨"x", "n", "m"⟩], fun _ => true)] "x" (by simp)

/-- C2 (counterexample): the claim "no partial/truncated file remains at the
final destination path after a mid-stream failure" is false on the code. For
an admitted 3-byte `a.txt` whose stream delivers the bytes `[104, 105]` and
then raises, `download_file` returns `None` yet the file at the final path
holds the two partial bytes. -/
theorem download_failure_leaves_partial_file :
    (download_file ⟨"id1", "a.txt", 3, some "u", none, "text/plain"⟩
        ⟨200, [StreamEvent.chunk [104, 105], StreamEvent.errMid]⟩).result = none ∧
    (download_file ⟨"id1", "a.txt", 3, some "u", none, "text/plain"⟩
        ⟨200, [StreamEvent.chunk [104, 105], StreamEvent.errMid]⟩).fileAtPath
      = some [104, 105] := by
  constructor
  · rfl
  · rfl

/-- C2 (amended): on a mid-stream transport failure of an admitted item,
`download_file` returns a failure result, and the bytes written before the
error remain at the final destination path (the code opens the final path
directly and performs no cleanup on failure). -/
theorem download_midstream_failure_keeps_partial (f : SlackFileInfo)
    (resp : HttpResponse) (hadm : slackGate f = GateDecision.proceed)
    (h200 : resp.status = 200) (hfail : (runStream resp.events []).2 = false) :
    (download_file f resp).result = none ∧
    (download_file f resp).fileAtPath = some (runStream resp.events []).1 := by
  rcases hval : runStream resp.events [] with ⟨written, ok⟩
  rw [hval] at hfail
  simp only at hfail
  subst hfail
  unfold download_file
  rw [hadm]
  simp [h200, hval]

/-- C2 (witness): the amended theorem applied to a concrete admitted file
whose stream fails after one byte. -/
theorem download_midstream_failure_keeps_partial_witness :
    (download_file ⟨"w1", "b.pdf", 9, some "u", none, ""⟩
        ⟨200, [StreamEvent.chunk [7], StreamEvent.errMid]⟩).result = none ∧
    (download_file ⟨"w1", "b.pdf", 9, some "u", none, ""⟩
        ⟨200, [StreamEvent.chunk [7], StreamEvent.errMid]⟩).fileAtPath = some [7] :=
  download_midstream_failure_keeps_partial
    ⟨"w1", "b.pdf", 9, some "u", none, ""⟩
    ⟨200, [StreamEvent.chunk [7], StreamEvent.errMid]⟩ (by decide) rfl (by decide)

/-- C3: the trigger classifier equals the first-match-in-priority-order
classifier built from the spec's rule ordering (mention > command > keyword
> pattern), so it short-circuits and emits at most one non-none label; in
particular a text matching both a keyword and a pattern gets the keyword
label, as the concrete second conjunct shows. -/
theorem classify_strict_priority_order :
    (∀ botId text, classify botId text = specClassify botId text) ∧
    classify "U1" "save this todo: x" = some TriggerType.keyword_trigger := by
  refine ⟨?_, by decide⟩
  intro botId text
  unfold classify specClassify rulesInPriority
  cases hm : mentionMatch botId text <;> cases hc : commandMatch text <;>
    cases hk : keywordMatch text <;> cases hp : patternMatch text <;>
      simp [List.find?, hm, hc, hk, hp]

/-- C4: the Slack download gate rejects with too-large exactly when the size
strictly exceeds `MAX_FILE_SIZE`; an otherwise-eligible item exactly at the
ceiling is admitted and one byte over is rejected. -/
theorem slackGate_size_ceiling_boundary :
    (∀ f : SlackFileInfo,
        slackGate f = GateDecision.rejectTooLarge ↔ MAX_FILE_SIZE < f.size) ∧
    slackGate ⟨"b1", "a.txt", MAX_FILE_SIZE, some "u", none, ""⟩
      = GateDecision.proceed ∧
    slackGate ⟨"b2", "a.txt", MAX_FILE_SIZE + 1, some "u", none, ""⟩
      = GateDecision.rejectTooLarge := by
  refine ⟨?_, by decide, by decide⟩
  intro f
  unfold slackGate
  by_cases h : MAX_FILE_SIZE < f.size
  · simp [h]
  · simp only [if_neg h]
    split
    · simp [h]
    · split <;> simp [h]

/-- C5 (counterexample): the claim "the gate decision is a pure function of
(kind, size, resolved-extension)" is false on the code: two native items
with equal size and equal resolved extension, differing only in the presence
of a download URL, get different decisions. -/
theorem slackGate_url_breaks_triple_determinism :
    (⟨"a", "a.txt", 10, some "u", none, ""⟩ : SlackFileInfo).size
        = (⟨"b", "a.txt", 10, none, none, ""⟩ : SlackFileInfo).size ∧
    resolvedExt (⟨"a", "a.txt", 10, some "u", none, ""⟩ : SlackFileInfo).name
        = resolvedExt (⟨"b", "a.txt", 10, none, none, ""⟩ : SlackFileInfo).name ∧
    slackGate ⟨"a", "a.txt", 10, some "u", none, ""⟩
        ≠ slackGate ⟨"b", "a.txt", 10, none, none, ""⟩ := by
  refine ⟨rfl, rfl, by decide⟩

/-- C5 (amended): under the fixed configuration the gate decision is a pure
function of (kind, size, resolved-extension, url-presence): two items
agreeing on size, resolved extension and truthiness of the effective
download URL (all Slack items being native) receive the same decision,
regardless of any other field. -/
theorem slackGate_decision_determined (f g : SlackFileInfo)
    (hs : f.size = g.size) (he : resolvedExt f.name = resolvedExt g.name)
    (hu : truthyStr (effectiveUrl f) = truthyStr (effectiveUrl g)) :
    slackGate f = slackGate g := by
  unfold slackGate
  rw [hs, he, hu]

/-- C5 (witness): the amended determinism theorem applied to two concrete
items differing in id, name casing and mimetype. -/
theorem slackGate_decision_determined_witness :
    slackGate ⟨"a", "x.PDF", 5, some "u", none, "text/plain"⟩
      = slackGate ⟨"b", "y.pdf", 5, none, some "v", "application/pdf"⟩ :=
  slackGate_decision_determined
    ⟨"a", "x.PDF", 5, some "u", none, "text/plain"⟩
    ⟨"b", "y.pdf", 5, none, some "v", "application/pdf"⟩
    rfl (by decide) (by decide)

/-- C6: the Drive gate maps each supported Google-Workspace subtype to its
export MIME type and appends the matching extension to the output name, and
rejects any unmapped virtual subtype as unsupported before any fetch. -/
theorem driveGate_virtual_export_mapping :
    (∀ name : String,
      driveGate name "application/vnd.google-apps.document"
        = DriveGate.exportAs
            "application/vnd.openxmlformats-officedocument.wordprocessingml.document"
            (name ++ ".docx") ∧
      driveGate name "application/vnd.google-apps.spreadsheet"
        = DriveGate.exportAs
            "application/vnd.openxmlformats-officedocument.spreadsheetml.sheet"
            (name ++ ".xlsx") ∧
      driveGate name "application/vnd.google-apps.presentation"
        = DriveGate.exportAs
            "application/vnd.openxmlformats-officedocument.presentationml.presentation"
            (name ++ ".pptx")) ∧
    (∀ name mt : String, strStartsWith mt "application/vnd.google-apps" = true →
      export_formats.lookup mt = none →
      driveGate name mt = DriveGate.rejectUnsupportedVirtual) := by
  constructor
  · intro name
    exact ⟨rfl, rfl, rfl⟩
  · intro name mt hv hl
    unfold driveGate
    rw [if_pos hv, hl]

/-- C6 (witness): a folder (a virtual type with no export mapping) is
rejected as an unsupported virtual type. -/
theorem driveGate_virtual_export_mapping_witness :
    driveGate "notes" "application/vnd.google-apps.folder"
      = DriveGate.rejectUnsupportedVirtual :=
  driveGate_virtual_export_mapping.2 "notes" "application/vnd.google-apps.folder"
    (by decide) (by decide)

/-- C7: a poll cycle whose listing fails with a transient error leaves the
known-id set (Drive) and the events and logging stores (Slack) exactly as
they were, and the loop continues to the next cycle instead of
terminating. -/
theorem transient_listing_error_preserves_state :
    (∀ (known : List String) (dlOk : String → Bool),
        drivePollCycle known ListingResult.transientError dlOk
          = ⟨known, [], true⟩) ∧
    (∀ (botId now channel : String) (events : EventsData) (logd : LoggingData),
        slackMonitorCycle botId now channel (Except.error ()) events logd
          = (events, logd, true)) :=
  ⟨fun _ _ => rfl, fun _ _ _ _ _ => rfl⟩

/-- C8: reading either persisted store when its file is missing or empty
yields the empty state — no records, no last-updated timestamp, and (for the
logging store) a zero running count — rather than an error. -/
theorem missing_or_empty_store_reads_empty :
    (∀ f : DiskFile EventsData, f = DiskFile.missing ∨ f = DiskFile.empty →
        load_existing_data f = ⟨[], none⟩) ∧
    (∀ f : DiskFile LoggingData, f = DiskFile.missing ∨ f = DiskFile.empty →
        load_logging_data f = ⟨[], none, 0⟩) := by
  constructor
  · rintro f (rfl | rfl) <;> rfl
  · rintro f (rfl | rfl) <;> rfl

/-- C8 (witness): both loaders applied to a missing store file. -/
theorem missing_or_empty_store_reads_empty_witness :
    load_existing_data DiskFile.missing = ⟨[], none⟩ ∧
    load_logging_data DiskFile.missing = ⟨[], none, 0⟩ :=
  ⟨missing_or_empty_store_reads_empty.1 DiskFile.missing (Or.inl rfl),
   missing_or_empty_store_reads_empty.2 DiskFile.missing (Or.inl rfl)⟩

/-- C9: every processing path ignores messages authored by the monitoring
bot itself: the logging records, the steady-state file-download attempts,
the trigger events, and the startup history-scan download attempts are all
unchanged when the bot-authored messages are removed from the input, so a
bot message is never logged, never classified, and none of its files are
ever downloaded. -/
theorem bot_author_messages_fully_ignored (botId now channel : String)
    (msgs : List SlackMessage) :
    logRecentMessages botId now msgs
        = logRecentMessages botId now (msgs.filter (fun m => !(m.user == botId))) ∧
    loggedFilesAttempted botId msgs
        = loggedFilesAttempted botId (msgs.filter (fun m => !(m.user == botId))) ∧
    triggerEvents botId now channel msgs
        = triggerEvents botId now channel (msgs.filter (fun m => !(m.user == botId))) ∧
    historyFilesAttempted botId msgs
        = historyFilesAttempted botId (msgs.filter (fun m => !(m.user == botId))) := by
  induction msgs with
  | nil => exact ⟨rfl, rfl, rfl, rfl⟩
  | cons m rest ih =>
    obtain ⟨ih1, ih2, ih3, ih4⟩ := ih
    by_cases h : (m.user == botId) = true
    · simp [logRecentMessages, loggedFilesAttempted, triggerEvents,
        historyFilesAttempted, List.filter_cons, h, ih1, ih2, ih3, ih4]
    · have hb : (m.user == botId) = false := by
        cases hmb : (m.user == botId)
        · rfl
        · exact absurd hmb h
      cases hcl : classify botId m.text <;>
        by_cases hf : m.files.isEmpty = true <;>
          simp [logRecentMessages, loggedFilesAttempted, triggerEvents,
            historyFilesAttempted, List.filter_cons, hb, hcl, hf, ih1, ih2, ih3, ih4]

/-- C10: after an append to the logging store, the stored running count
equals the length of the stored message list, the appended record is the
last element, the previously stored records form an unchanged prefix in
their original order, and last-updated is set to the current time. -/
theorem save_to_logging_append_invariants (d : LoggingData) (md : MessageData)
    (now : String) :
    (save_to_logging d md now).total_messages
        = (save_to_logging d md now).messages.length ∧
    (save_to_logging d md now).messages.getLast? = some md ∧
    (save_to_logging d md now).messages.take d.messages.length = d.messages ∧
    (save_to_logging d md now).last_updated = some now := by
  refine ⟨rfl, ?_, ?_, rfl⟩
  · simp [save_to_logging, List.getLast?_concat]
  · show (d.messages ++ [md]).take d.messages.length = d.messages
    exact List.take_left d.messages [md]

end OneStopAi
